import Mathlib

/-!
Verification of the Sarus lab-assistant robot control core.

Shallow embedding of the relevant parts of the source:
  - `src/hardware/motor_controller.py`  (MotorController)
  - `src/safety/emergency_stop.py`      (EmergencyStop)
  - `src/hardware/sensor_manager.py`    (SensorManager)
  - `src/navigation/navigation_manager.py` (NavigationManager)
  - `src/core/robot.py`                 (SarusRobot.run state machine)
  - `src/utils/mission_logger.py`       (MissionLogger)

Python floats are modelled as rationals (ℚ); timestamps as rationals;
dictionaries as association lists or records of `Option` fields.
-/

namespace Sarus

/-! ## Motor controller (`motor_controller.py`) -/

/-- `MotorDirection` enum from `motor_controller.py`. -/
inductive MotorDirection
  | forward
  | backward
  | stop
deriving DecidableEq

/-- The mutable state of `MotorController` that the movement methods read and
write.  GPIO objects are hardware side effects with no feedback into these
fields and are omitted.  `max_speed` and `turn_speed` are the configuration
values captured in `__init__` (defaults 0.8 and 0.6). -/
structure MotorState where
  current_left_speed : ℚ
  current_right_speed : ℚ
  current_direction : MotorDirection
  is_moving : Bool
  emergency_stop_active : Bool
  movement_start_time : Option ℚ
  max_speed : ℚ
  turn_speed : ℚ
deriving DecidableEq

/-- `max(0.0, min(1.0, x))`, the clamp used by the movement methods. -/
def clamp01 (x : ℚ) : ℚ := max 0 (min 1 x)

/-- `max(-1.0, min(1.0, x))`, the clamp used by `differential_drive`. -/
def clamp_pm1 (x : ℚ) : ℚ := max (-1) (min 1 x)

/-- Python truthiness of an optional float (`None` and `0.0` are falsy):
used for `if duration:` and `if not self.movement_start_time:`. -/
def opt_truthy (o : Option ℚ) : Bool := decide (o.getD 0 ≠ 0)

/-- `MotorController._set_motor_speeds`: clamps both speeds to [0,1] and
stores them; the PWM writes are hardware side effects. -/
def set_motor_speeds (m : MotorState) (left_speed right_speed : ℚ) : MotorState :=
  { m with current_left_speed := clamp01 left_speed,
           current_right_speed := clamp01 right_speed }

/-- `MotorController.stop`: speeds to 0, direction STOP, not moving. -/
def motor_stop (m : MotorState) : MotorState :=
  { m with current_left_speed := 0,
           current_right_speed := 0,
           current_direction := MotorDirection.stop,
           is_moving := false,
           movement_start_time := none }

/-- `MotorController.emergency_stop`: sets the emergency flag, then `stop`. -/
def motor_emergency_stop (m : MotorState) : MotorState :=
  motor_stop { m with emergency_stop_active := true }

/-- `MotorController.clear_emergency_stop`. -/
def clear_emergency_stop (m : MotorState) : MotorState :=
  { m with emergency_stop_active := false }

/-- `MotorController.move_forward(speed, duration)` at wall-clock time `now`.
A `none` speed defaults to `max_speed`; the speed is clamped; if the
emergency flag is set the method returns before touching any state.  A
truthy duration ends with a call to `stop` (the `asyncio.sleep` wait is a
pure delay). -/
def move_forward (m : MotorState) (speed : Option ℚ) (duration : Option ℚ)
    (now : ℚ) : MotorState :=
  let sp := clamp01 (speed.getD m.max_speed)
  if m.emergency_stop_active then m
  else
    let m := set_motor_speeds m sp sp
    let m := { m with current_direction := MotorDirection.forward,
                      is_moving := true,
                      movement_start_time := some now }
    if opt_truthy duration then motor_stop m else m

/-- `MotorController.move_backward(speed, duration)`. -/
def move_backward (m : MotorState) (speed : Option ℚ) (duration : Option ℚ)
    (now : ℚ) : MotorState :=
  let sp := clamp01 (speed.getD m.max_speed)
  if m.emergency_stop_active then m
  else
    let m := set_motor_speeds m sp sp
    let m := { m with current_direction := MotorDirection.backward,
                      is_moving := true,
                      movement_start_time := some now }
    if opt_truthy duration then motor_stop m else m

/-- `MotorController.turn_left(speed, duration)`.  A `none` speed defaults to
`turn_speed`.  Note the source sets wheel directions through GPIO only and
does not update `current_direction`. -/
def turn_left (m : MotorState) (speed : Option ℚ) (duration : Option ℚ)
    (now : ℚ) : MotorState :=
  let sp := clamp01 (speed.getD m.turn_speed)
  if m.emergency_stop_active then m
  else
    let m := set_motor_speeds m sp sp
    let m := { m with is_moving := true, movement_start_time := some now }
    if opt_truthy duration then motor_stop m else m

/-- `MotorController.turn_right(speed, duration)`. -/
def turn_right (m : MotorState) (speed : Option ℚ) (duration : Option ℚ)
    (now : ℚ) : MotorState :=
  let sp := clamp01 (speed.getD m.turn_speed)
  if m.emergency_stop_active then m
  else
    let m := set_motor_speeds m sp sp
    let m := { m with is_moving := true, movement_start_time := some now }
    if opt_truthy duration then motor_stop m else m

/-- `MotorController.differential_drive(left_speed, right_speed)`. -/
def differential_drive (m : MotorState) (left_speed right_speed : ℚ)
    (now : ℚ) : MotorState :=
  if m.emergency_stop_active then m
  else
    let l := clamp_pm1 left_speed
    let r := clamp_pm1 right_speed
    let m := set_motor_speeds m |l| |r|
    let moving : Bool := decide (|l| > 1/100) || decide (|r| > 1/100)
    let start :=
      if moving && !(opt_truthy m.movement_start_time) then some now
      else if !moving then none
      else m.movement_start_time
    { m with is_moving := moving, movement_start_time := start }

/-- The freshly constructed `MotorController` state (defaults from
`__init__`: speeds 0.0, direction STOP, flags false, config defaults). -/
def init_motor : MotorState :=
  { current_left_speed := 0, current_right_speed := 0,
    current_direction := MotorDirection.stop,
    is_moving := false, emergency_stop_active := false,
    movement_start_time := none,
    max_speed := 4/5, turn_speed := 3/5 }

/-! ## Emergency stop (`emergency_stop.py`) -/

/-- `EmergencyType` enum. -/
inductive EmergencyType
  | gas_leak
  | fire
  | intruder
  | hardware_failure
  | user_emergency
  | system_critical
  | manual_stop
deriving DecidableEq

/-- `EmergencyEvent` dataclass (the free-form `data` dict is omitted). -/
structure EmergencyEvent where
  event_type : EmergencyType
  severity : String
  message : String
  timestamp : ℚ
  source : String
deriving DecidableEq

/-- The mutable state of `EmergencyStop` that `trigger_emergency`,
`reset_emergency` and the query methods touch. -/
structure EmergencyStopState where
  emergency_active : Bool
  emergency_level : ℕ
  current_emergency : Option EmergencyEvent
  emergency_history : List EmergencyEvent
deriving DecidableEq

/-- The `severity_levels` lookup in `trigger_emergency`
(`.get(severity, 3)`). -/
def severity_levels (severity : String) : ℕ :=
  if severity = "low" then 1
  else if severity = "medium" then 2
  else if severity = "high" then 3
  else if severity = "critical" then 4
  else 3

/-- Which per-kind handler calls `_stop_all_movement` (and hence
`motor_controller.emergency_stop`): every handler except
`_handle_security_breach` (INTRUDER) and `_handle_system_critical`
(SYSTEM_CRITICAL), which run lockdown/backup procedures only. -/
def handler_stops_movement : EmergencyType → Bool
  | EmergencyType.intruder => false
  | EmergencyType.system_critical => false
  | _ => true

/-- Combined safety-relevant system state: the emergency-stop component
plus the motor controller it commands through
`robot_controller.motor_controller`. -/
structure SafetyState where
  motor : MotorState
  estop : EmergencyStopState
deriving DecidableEq

/-- `EmergencyStop.trigger_emergency(type, message, severity, source)` at time
`now`: unconditionally creates an `EmergencyEvent`, appends it to the
history, makes it current, sets the level, then runs the kind-specific
handler.  Every handler sets `emergency_active`; the handlers for all kinds
except INTRUDER and SYSTEM_CRITICAL also call `_stop_all_movement`, which
reaches `motor_controller.emergency_stop()` (the subsequent
`navigation_manager.emergency_stop()` attribute lookup fails and is caught
inside `_stop_all_movement`'s `try` block). -/
def trigger_emergency (s : SafetyState) (ty : EmergencyType)
    (message severity source : String) (now : ℚ) : SafetyState :=
  let event : EmergencyEvent :=
    { event_type := ty, severity := severity, message := message,
      timestamp := now, source := source }
  let es := { s.estop with
      emergency_history := s.estop.emergency_history ++ [event],
      current_emergency := some event,
      emergency_level := severity_levels severity }
  let es := { es with emergency_active := true }
  let motor := if handler_stops_movement ty then motor_emergency_stop s.motor
               else s.motor
  { motor := motor, estop := es }

/-- `EmergencyStop.reset_emergency`: clears the event state when active.  It
never touches the motor controller's own `emergency_stop_active` flag. -/
def reset_emergency (es : EmergencyStopState) : EmergencyStopState :=
  if es.emergency_active then
    { es with emergency_active := false, emergency_level := 0,
              current_emergency := none }
  else es

/-- `EmergencyStop.is_emergency_active`. -/
def is_emergency_active (es : EmergencyStopState) : Bool :=
  es.emergency_active

/-- One call in a trace over the safety-relevant system: an
`EmergencyStop` call or a `MotorController` call. -/
inductive SafetyOp
  | trigger (ty : EmergencyType) (message severity source : String) (now : ℚ)
  | mv_forward (speed duration : Option ℚ) (now : ℚ)
  | mv_backward (speed duration : Option ℚ) (now : ℚ)
  | tn_left (speed duration : Option ℚ) (now : ℚ)
  | tn_right (speed duration : Option ℚ) (now : ℚ)
  | halt
  | motor_estop
  | clear_estop
  | reset
  | diff_drive (left_speed right_speed : ℚ) (now : ℚ)
deriving DecidableEq

/-- Interpretation of one trace call on the combined state. -/
def safety_step (s : SafetyState) : SafetyOp → SafetyState
  | SafetyOp.trigger ty msg sev src now => trigger_emergency s ty msg sev src now
  | SafetyOp.mv_forward sp d now => { s with motor := move_forward s.motor sp d now }
  | SafetyOp.mv_backward sp d now => { s with motor := move_backward s.motor sp d now }
  | SafetyOp.tn_left sp d now => { s with motor := turn_left s.motor sp d now }
  | SafetyOp.tn_right sp d now => { s with motor := turn_right s.motor sp d now }
  | SafetyOp.halt => { s with motor := motor_stop s.motor }
  | SafetyOp.motor_estop => { s with motor := motor_emergency_stop s.motor }
  | SafetyOp.clear_estop => { s with motor := clear_emergency_stop s.motor }
  | SafetyOp.reset => { s with estop := reset_emergency s.estop }
  | SafetyOp.diff_drive l r now => { s with motor := differential_drive s.motor l r now }

/-- A trace of calls, applied left to right. -/
def safety_run (s : SafetyState) (ops : List SafetyOp) : SafetyState :=
  List.foldl safety_step s ops

/-- The commands named by the emergency invariant:
`moveForward`, `turnLeft`, `turnRight`. -/
def is_movement_cmd : SafetyOp → Bool
  | SafetyOp.mv_forward _ _ _ => true
  | SafetyOp.tn_left _ _ _ => true
  | SafetyOp.tn_right _ _ _ => true
  | _ => false

/-- Initial combined state: fresh motor controller, no emergency. -/
def init_safety : SafetyState :=
  { motor := init_motor,
    estop := { emergency_active := false, emergency_level := 0,
               current_emergency := none, emergency_history := [] } }

/-! ## Sensor manager (`sensor_manager.py`) -/

/-- `SensorReading` dataclass (the `sensor_type` enum field is carried as its
string value). -/
structure SensorReading where
  sensor_id : String
  sensor_type : String
  value : ℚ
  unit : String
  timestamp : ℚ
  valid : Bool
deriving DecidableEq

/-- The `SensorManager` state read by the query methods: the
`latest_readings` dict (keyed by sensor id) and the two thresholds captured
from `SYSTEM_CONFIG` (defaults 30 and 10 cm). -/
structure SensorState where
  latest_readings : List (String × SensorReading)
  obstacle_threshold : ℚ
  emergency_threshold : ℚ
deriving DecidableEq

/-- `self.latest_readings.get(sensor_id)`. -/
def lookup_reading (s : SensorState) (sensor_id : String) : Option SensorReading :=
  s.latest_readings.lookup sensor_id

/-- `SensorManager.get_distance_reading(position)`: the latest reading of
`ultrasonic_<position>` when present and valid, else `None`.  The reading's
timestamp is never consulted. -/
def get_distance_reading (s : SensorState) (position : String) : Option ℚ :=
  match lookup_reading s ("ultrasonic_" ++ position) with
  | some r => if r.valid then some r.value else none
  | none => none

/-- `SensorManager.is_path_clear(direction, min_distance)`: `min_distance`
defaults to `obstacle_threshold`; a missing or invalid reading means
blocked; otherwise clear iff `distance >= min_distance`. -/
def is_path_clear (s : SensorState) (direction : String)
    (min_distance : Option ℚ) : Bool :=
  let minD := min_distance.getD s.obstacle_threshold
  match get_distance_reading s direction with
  | none => false
  | some d => decide (d ≥ minD)

/-- Spec-comparison definition (follows the spec's words, not the source):
`isPathClear` additionally treats a reading older than a staleness bound as
invalid — clear iff the latest reading exists, is valid, is no older than
`stale_bound` at time `now`, and its value is at least the threshold. -/
def is_path_clear_spec (s : SensorState) (direction : String)
    (min_distance : Option ℚ) (now stale_bound : ℚ) : Bool :=
  let minD := min_distance.getD s.obstacle_threshold
  match lookup_reading s ("ultrasonic_" ++ direction) with
  | none => false
  | some r => r.valid && decide (now - r.timestamp ≤ stale_bound)
      && decide (r.value ≥ minD)

/-- `SensorManager.get_obstacle_map` restricted to the three ultrasonic
directions (the dict contains exactly the directions with an available
valid reading). -/
structure ObstacleDists where
  front : Option ℚ
  left : Option ℚ
  right : Option ℚ
deriving DecidableEq

/-- `SensorManager.get_obstacle_map()`. -/
def get_obstacle_map (s : SensorState) : ObstacleDists :=
  { front := get_distance_reading s "front",
    left := get_distance_reading s "left",
    right := get_distance_reading s "right" }

/-! ## Robot state machine (`robot.py`, `SarusRobot.run`) -/

/-- `RobotState` enum from `robot.py`. -/
inductive RobotState
  | initializing
  | idle
  | listening
  | processing
  | speaking
  | moving
  | exploring
  | monitoring
  | alert
  | emergency
  | error
  | shutdown
deriving DecidableEq

/-- The collaborator inputs one iteration of `SarusRobot.run` can consume:
whether `EmergencyStop.is_emergency_active()` would report true (available
to the system, though `run` never reads it), the wake-word check, the
listened command, the action type `_parse_response_for_action` derives from
the LLM response, and whether `continue_exploration` reports the mission
complete. -/
structure TickEnv where
  emergency_active : Bool
  wake_word : Bool
  command : Option String
  action_type : String
  mission_complete : Bool
deriving DecidableEq

/-- One iteration of the `while` loop in `SarusRobot.run`: dispatch on the
current state to the matching `_*_loop` handler and return the state it
leaves behind.  States without a branch (INITIALIZING, MONITORING, ALERT,
EMERGENCY, SHUTDOWN) fall through unchanged.  `_error_loop`'s `try` body
only plays an animation and sets IDLE.  No branch consults the emergency
stop system. -/
def run_tick (st : RobotState) (env : TickEnv) : RobotState :=
  match st with
  | RobotState.idle =>
      if env.wake_word then RobotState.listening else RobotState.idle
  | RobotState.listening =>
      match env.command with
      | some _ => RobotState.processing
      | none => RobotState.idle
  | RobotState.processing =>
      match env.command with
      | some _ =>
          if env.action_type = "speech" then RobotState.speaking
          else if env.action_type = "movement" then RobotState.moving
          else if env.action_type = "exploration" then RobotState.exploring
          else RobotState.idle
      | none => RobotState.processing
  | RobotState.speaking => RobotState.idle
  | RobotState.moving => RobotState.idle
  | RobotState.exploring =>
      if env.mission_complete then RobotState.idle else RobotState.exploring
  | RobotState.error => RobotState.idle
  | st => st

/-! ## Navigation manager (`navigation_manager.py`) -/

/-- `NavigationState` enum. -/
inductive NavigationState
  | idle
  | moving
  | turning
  | avoiding_obstacle
  | exploring
  | seeking_target
  | stuck
deriving DecidableEq

/-- `NavigationGoal` dataclass. -/
structure NavigationGoal where
  target_object : Option String
  target_location : Option (ℚ × ℚ)
  exploration_area : Option String
  max_duration : ℚ
  priority : ℤ
deriving DecidableEq

/-- The `NavigationManager` state the claims touch: the referenced motor
controller and sensor manager, the configuration captured in `__init__`
(defaults 0.8, 0.6, 30, 10), and the navigation bookkeeping fields.  The
`position_history` list (placeholder coordinates with a random component)
is tracked only through `total_distance_traveled` here. -/
structure NavManagerState where
  motor : MotorState
  sensors : SensorState
  max_speed : ℚ
  turn_speed : ℚ
  obstacle_threshold : ℚ
  emergency_threshold : ℚ
  nav_state : NavigationState
  current_goal : Option NavigationGoal
  movement_history : List String
  consecutive_obstacles : ℕ
  last_obstacle_time : ℚ
  current_exploration_pattern : String
  total_distance_traveled : ℚ
  objects_found : List String
deriving DecidableEq

/-- An action dict handed to `execute_action`; each field models the
corresponding dict key (`action_type` models the key named type), absent
keys are `none`. -/
structure NavAction where
  action_type : Option String
  direction : Option String
  duration : Option ℚ
  speed : Option ℚ
  exploration_type : Option String
  max_duration : Option ℚ
  target_object : Option String
  max_search_time : Option ℚ
deriving DecidableEq

/-- `NavigationManager._is_path_safe(direction)`:
`sensor_manager.is_path_clear(direction, self.obstacle_threshold)`. -/
def is_path_safe (n : NavManagerState) (direction : String) : Bool :=
  is_path_clear n.sensors direction (some n.obstacle_threshold)

/-- `NavigationManager._update_position_estimate(direction, duration)`:
dead-reckoning distance accumulation (`max_speed * duration * 0.5` per
forward/backward action). -/
def update_position_estimate (n : NavManagerState) (direction : String)
    (duration : ℚ) : NavManagerState :=
  if direction = "forward" then
    { n with total_distance_traveled :=
        n.total_distance_traveled + n.max_speed * duration * (1/2) }
  else if direction = "backward" then
    { n with total_distance_traveled :=
        n.total_distance_traveled + |(-(n.max_speed * duration * (1/2)) : ℚ)| }
  else n

/-- `NavigationManager._execute_movement_action(action)` at time `now`:
defaults direction "forward", duration 2.0, speed `max_speed`; a blocked
forward path returns `False` with no motor call and no other state change
(in particular, no emergency is triggered); otherwise the matching motor
command runs, the movement is recorded, and it returns `True`. -/
def execute_movement_action (n : NavManagerState) (a : NavAction)
    (now : ℚ) : Bool × NavManagerState :=
  let direction := a.direction.getD "forward"
  let duration := a.duration.getD 2
  let speed := a.speed.getD n.max_speed
  if direction = "forward" && !(is_path_safe n "front") then (false, n)
  else
    let motor :=
      if direction = "forward" then
        move_forward n.motor (some speed) (some duration) now
      else if direction = "backward" then
        move_backward n.motor (some speed) (some duration) now
      else if direction = "left" then
        turn_left n.motor (some speed) (some duration) now
      else if direction = "right" then
        turn_right n.motor (some speed) (some duration) now
      else motor_stop n.motor
    let n := { n with
        motor := motor,
        movement_history :=
          n.movement_history ++ [direction ++ "_" ++ toString duration] }
    let n := update_position_estimate n direction duration
    (true, n)

/-- `NavigationManager._execute_exploration_action(action)`. -/
def execute_exploration_action (n : NavManagerState) (a : NavAction) :
    Bool × NavManagerState :=
  let exploration_type := a.exploration_type.getD "random"
  let max_duration := a.max_duration.getD 300
  let goal : NavigationGoal :=
    { target_object := none, target_location := none,
      exploration_area := some exploration_type,
      max_duration := max_duration, priority := 1 }
  (true, { n with current_goal := some goal,
                  nav_state := NavigationState.exploring })

/-- `NavigationManager._execute_seek_action(action)`. -/
def execute_seek_action (n : NavManagerState) (a : NavAction) :
    Bool × NavManagerState :=
  let target_object := a.target_object.getD ""
  let max_search_time := a.max_search_time.getD 120
  if target_object = "" then (false, n)
  else
    let goal : NavigationGoal :=
      { target_object := some target_object, target_location := none,
        exploration_area := none,
        max_duration := max_search_time, priority := 1 }
    (true, { n with current_goal := some goal,
                    nav_state := NavigationState.seeking_target })

/-- `NavigationManager.execute_action(action)`: dispatch on the action's
type key (missing key treated as the empty string); unknown types return
`False`; the whole body sits in a `try` whose `except` clause converts any
internal exception into a `False` return, so the caller always receives a
plain boolean. -/
def execute_action (n : NavManagerState) (a : NavAction) (now : ℚ) :
    Bool × NavManagerState :=
  let t := a.action_type.getD ""
  if t = "movement" then execute_movement_action n a now
  else if t = "exploration" then execute_exploration_action n a
  else if t = "seek_object" then execute_seek_action n a
  else (false, n)

/-- `NavigationManager._need_obstacle_avoidance(obstacles)`: any present
distance below `obstacle_threshold`. -/
def need_obstacle_avoidance (obstacle_threshold : ℚ) (o : ObstacleDists) : Bool :=
  o.front.any (fun d => decide (d < obstacle_threshold))
  || o.left.any (fun d => decide (d < obstacle_threshold))
  || o.right.any (fun d => decide (d < obstacle_threshold))

/-- The motor command chosen by `_perform_obstacle_avoidance`. -/
inductive AvoidanceCmd
  | cmd_turn_left (speed duration : ℚ)
  | cmd_turn_right (speed duration : ℚ)
  | cmd_move_backward (speed duration : ℚ)
  | no_command
deriving DecidableEq

/-- Whether an avoidance command is a reverse (backward) movement. -/
def is_backward_cmd : AvoidanceCmd → Bool
  | AvoidanceCmd.cmd_move_backward _ _ => true
  | _ => false

/-- The decision core of `_perform_obstacle_avoidance(obstacles)`: missing
directions default to 999; returns whether `motor_controller.emergency_stop`
is invoked (any present distance below `emergency_threshold`) and which
single turn command the maneuver issues.  The source never issues a
backward movement here. -/
def perform_obstacle_avoidance (obstacle_threshold emergency_threshold
    turn_speed : ℚ) (o : ObstacleDists) : Bool × AvoidanceCmd :=
  let front_dist := o.front.getD 999
  let left_dist := o.left.getD 999
  let right_dist := o.right.getD 999
  let estop := o.front.any (fun d => decide (d < emergency_threshold))
    || o.left.any (fun d => decide (d < emergency_threshold))
    || o.right.any (fun d => decide (d < emergency_threshold))
  let cmd :=
    if front_dist < obstacle_threshold then
      if left_dist > right_dist then AvoidanceCmd.cmd_turn_left turn_speed 1
      else AvoidanceCmd.cmd_turn_right turn_speed 1
    else if left_dist < obstacle_threshold then
      AvoidanceCmd.cmd_turn_right turn_speed (4/5)
    else if right_dist < obstacle_threshold then
      AvoidanceCmd.cmd_turn_left turn_speed (4/5)
    else AvoidanceCmd.no_command
  (estop, cmd)

/-- Apply a chosen avoidance command to the motor controller. -/
def apply_avoidance_cmd (m : MotorState) (now : ℚ) : AvoidanceCmd → MotorState
  | AvoidanceCmd.cmd_turn_left sp du => turn_left m (some sp) (some du) now
  | AvoidanceCmd.cmd_turn_right sp du => turn_right m (some sp) (some du) now
  | AvoidanceCmd.cmd_move_backward sp du => move_backward m (some sp) (some du) now
  | AvoidanceCmd.no_command => m

/-- The state effect of `_perform_obstacle_avoidance`: enters
AVOIDING_OBSTACLE, bumps `consecutive_obstacles`, optionally emergency-stops
the motors, issues the turn command, returns to EXPLORING and stamps
`last_obstacle_time`.  The movement history is not touched. -/
def do_obstacle_avoidance (n : NavManagerState) (o : ObstacleDists)
    (now : ℚ) : NavManagerState :=
  let n := { n with nav_state := NavigationState.avoiding_obstacle,
                    consecutive_obstacles := n.consecutive_obstacles + 1 }
  let dec := perform_obstacle_avoidance n.obstacle_threshold
      n.emergency_threshold n.turn_speed o
  let motor := if dec.1 then motor_emergency_stop n.motor else n.motor
  let motor := apply_avoidance_cmd motor now dec.2
  { n with motor := motor, nav_state := NavigationState.exploring,
           last_obstacle_time := now }

/-- The per-tick nondeterministic inputs of an exploration step: the current
time and the draws of the `random` module (direction choice with weights
0.6/0.2/0.2, duration from a bounded range together with its `:.1f`
rendering, and the fallback turn choice when forward is blocked). -/
structure ExploreEnv where
  now : ℚ
  rand_direction : String
  rand_duration : ℚ
  rand_duration_label : String
  rand_turn : String
deriving DecidableEq

/-- `NavigationManager._random_exploration`: weighted random direction;
forward moves at `max_speed * 0.7` when the front path is safe, otherwise a
1-second turn in a random direction; left/right are timed turns.  Exactly
one entry `<direction>_<duration:.1f>` is always appended to the movement
history. -/
def random_exploration (n : NavManagerState) (env : ExploreEnv) : NavManagerState :=
  let motor :=
    if env.rand_direction = "forward" then
      if is_path_safe n "front" then
        move_forward n.motor (some (n.max_speed * (7/10)))
          (some env.rand_duration) env.now
      else if env.rand_turn = "left" then
        turn_left n.motor (some n.turn_speed) (some 1) env.now
      else turn_right n.motor (some n.turn_speed) (some 1) env.now
    else if env.rand_direction = "left" then
      turn_left n.motor (some n.turn_speed) (some env.rand_duration) env.now
    else turn_right n.motor (some n.turn_speed) (some env.rand_duration) env.now
  { n with motor := motor,
           movement_history := n.movement_history ++
             [env.rand_direction ++ "_" ++ env.rand_duration_label] }

/-- `NavigationManager._wall_follow_exploration`: follow the right wall;
no movement-history entry is recorded. -/
def wall_follow_exploration (n : NavManagerState) (env : ExploreEnv) : NavManagerState :=
  let o := get_obstacle_map n.sensors
  let front_dist := o.front.getD 999
  let left_dist := o.left.getD 999
  let right_dist := o.right.getD 999
  let motor :=
    if front_dist < n.obstacle_threshold then
      if left_dist < right_dist then
        turn_right n.motor (some n.turn_speed) (some (4/5)) env.now
      else turn_left n.motor (some n.turn_speed) (some (4/5)) env.now
    else if right_dist < 40 then
      if right_dist < 20 then
        turn_left n.motor (some (n.turn_speed * (1/2))) (some (3/10)) env.now
      else move_forward n.motor (some (n.max_speed * (3/5))) (some 1) env.now
    else turn_right n.motor (some n.turn_speed) (some (1/2)) env.now
  { n with motor := motor }

/-- `NavigationManager._spiral_exploration`: fixed forward segment then a
fixed turn (the turn amount never grows); no history entry. -/
def spiral_exploration (n : NavManagerState) (env : ExploreEnv) : NavManagerState :=
  let motor := move_forward n.motor (some (n.max_speed * (3/5))) (some 2) env.now
  let motor := turn_right motor (some n.turn_speed) (some (3/10)) env.now
  { n with motor := motor }

/-- `NavigationManager._systematic_exploration`: alternate forward segments
with ~90° turns keyed on the history length; no history entry. -/
def systematic_exploration (n : NavManagerState) (env : ExploreEnv) : NavManagerState :=
  let motor :=
    if n.movement_history.length % 8 < 4 then
      if is_path_safe n "front" then
        move_forward n.motor (some (n.max_speed * (7/10))) (some 2) env.now
      else turn_right n.motor (some n.turn_speed) (some (8/5)) env.now
    else turn_right n.motor (some n.turn_speed) (some (4/5)) env.now
  { n with motor := motor }

/-- `NavigationManager._perform_exploration_step`: read the obstacle map;
avoid if any direction is below the obstacle threshold, otherwise run the
configured exploration pattern (unknown names fall back to random). -/
def perform_exploration_step (n : NavManagerState) (env : ExploreEnv) : NavManagerState :=
  let obstacles := get_obstacle_map n.sensors
  if need_obstacle_avoidance n.obstacle_threshold obstacles then
    do_obstacle_avoidance n obstacles env.now
  else if n.current_exploration_pattern = "random" then random_exploration n env
  else if n.current_exploration_pattern = "wall_follow" then wall_follow_exploration n env
  else if n.current_exploration_pattern = "spiral" then spiral_exploration n env
  else if n.current_exploration_pattern = "systematic" then systematic_exploration n env
  else random_exploration n env

/-- `NavigationManager._detect_stuck_condition()` at time `now`: stuck when
more than 10 consecutive obstacle events with the last one under 30 s ago,
or when the history holds more than 10 entries and its last six contain at
most two distinct entries (`len(set(history[-6:])) <= 2`). -/
def detect_stuck_condition (n : NavManagerState) (now : ℚ) : Bool :=
  if n.consecutive_obstacles > 10 && decide (now - n.last_obstacle_time < 30) then
    true
  else if n.movement_history.length > 10
      && ((n.movement_history.drop (n.movement_history.length - 6)).dedup.length ≤ 2) then
    true
  else false

/-- The mission dict handed to `continue_exploration` (the keys the method
reads or extends). -/
structure MissionData where
  start_time : ℚ
  max_duration : ℚ
  discovered_objects : List String
deriving DecidableEq

/-- `NavigationManager._check_for_discoveries(mission_data)`: the object
names matched in the scene description (`scene_objects`, from the Vision
collaborator) are appended to the mission's discoveries and to
`objects_found` unless already present by name. -/
def check_for_discoveries (n : NavManagerState) (mission : MissionData)
    (scene_objects : List String) : NavManagerState × MissionData :=
  let discovered := scene_objects.foldl
    (fun acc obj => if obj ∈ acc then acc else acc ++ [obj])
    mission.discovered_objects
  let found := scene_objects.foldl
    (fun acc obj => if obj ∈ mission.discovered_objects then acc else acc ++ [obj])
    n.objects_found
  ({ n with objects_found := found }, { mission with discovered_objects := discovered })

/-- `NavigationManager.continue_exploration(mission_data)`: returns `True`
(mission complete) when not exploring, when the mission time limit is
exceeded, or when the stuck condition holds; otherwise performs one
exploration step, checks for discoveries (`scene_objects` being this tick's
vision matches) and returns `False`. -/
def continue_exploration (n : NavManagerState) (mission : MissionData)
    (env : ExploreEnv) (scene_objects : List String) :
    Bool × NavManagerState × MissionData :=
  if n.nav_state ≠ NavigationState.exploring then (true, n, mission)
  else if env.now - mission.start_time > mission.max_duration then (true, n, mission)
  else if detect_stuck_condition n env.now then (true, n, mission)
  else
    let n := perform_exploration_step n env
    let p := check_for_discoveries n mission scene_objects
    (false, p.1, p.2)

/-! ## Mission logger (`mission_logger.py`) -/

/-- `MissionRecord` dataclass (list items reduced to their identifying
strings; the `sensor_data` dict is omitted). -/
structure MissionRecord where
  mission_id : String
  start_time : ℚ
  end_time : Option ℚ
  duration : Option ℚ
  objective : String
  status : String
  discovered_objects : List String
  path_taken : List String
  obstacles_encountered : List String
  commands_received : List String
  responses_given : List String
  summary : Option String
deriving DecidableEq

/-- The `MissionLogger` state the lifecycle methods use (the SQLite and
JSON persistence are write-only side effects). -/
structure MissionLoggerState where
  current_mission : Option MissionRecord
deriving DecidableEq

/-- `MissionLogger.start_mission(mission_data)` at time `now`: a fresh
active record becomes the current mission; the id defaults to
`mission_<int(time)>`. -/
def start_mission (_s : MissionLoggerState) (data_id : Option String)
    (objective : Option String) (now : ℚ) : String × MissionLoggerState :=
  let mission_id := data_id.getD ("mission_" ++ toString now.floor)
  let record : MissionRecord :=
    { mission_id := mission_id, start_time := now, end_time := none,
      duration := none, objective := objective.getD "exploration",
      status := "active", discovered_objects := [], path_taken := [],
      obstacles_encountered := [], commands_received := [],
      responses_given := [], summary := none }
  (mission_id, { current_mission := some record })

/-- `MissionLogger.complete_mission(mission_data, summary)` at time `now`:
finalizes the current record (end time, duration = end - start, status
completed, summary, extra discoveries appended), persists it, and clears
the current mission; returns the finalized record (`none` when no mission
is active). -/
def complete_mission (s : MissionLoggerState) (extra_discovered : List String)
    (summary : String) (now : ℚ) : Option MissionRecord × MissionLoggerState :=
  match s.current_mission with
  | none => (none, s)
  | some m =>
      let m := { m with end_time := some now,
                        duration := some (now - m.start_time),
                        status := "completed",
                        summary := some summary,
                        discovered_objects :=
                          m.discovered_objects ++ extra_discovered }
      (some m, { current_mission := none })

/-! ## Helper lemmas -/

theorem clamp01_nonneg (x : ℚ) : 0 ≤ clamp01 x := le_max_left 0 _

theorem clamp01_le_one (x : ℚ) : clamp01 x ≤ 1 :=
  max_le zero_le_one (min_le_left 1 x)

/-- The PWM-speed range invariant of the motor controller. -/
def speeds_in_range (m : MotorState) : Prop :=
  0 ≤ m.current_left_speed ∧ m.current_left_speed ≤ 1
  ∧ 0 ≤ m.current_right_speed ∧ m.current_right_speed ≤ 1

instance (m : MotorState) : Decidable (speeds_in_range m) := by
  unfold speeds_in_range; infer_instance

theorem speeds_in_range_set (m : MotorState) (l r : ℚ) :
    speeds_in_range (set_motor_speeds m l r) :=
  ⟨clamp01_nonneg l, clamp01_le_one l, clamp01_nonneg r, clamp01_le_one r⟩

theorem speeds_in_range_stop (m : MotorState) :
    speeds_in_range (motor_stop m) :=
  ⟨le_refl 0, zero_le_one, le_refl 0, zero_le_one⟩

/-- The public `MotorController` operations, as a trace alphabet. -/
inductive MotorOp
  | op_move_forward (speed duration : Option ℚ) (now : ℚ)
  | op_move_backward (speed duration : Option ℚ) (now : ℚ)
  | op_turn_left (speed duration : Option ℚ) (now : ℚ)
  | op_turn_right (speed duration : Option ℚ) (now : ℚ)
  | op_stop
  | op_emergency_stop
  | op_clear_emergency_stop
  | op_differential_drive (left_speed right_speed : ℚ) (now : ℚ)
deriving DecidableEq

/-- Interpretation of one `MotorController` call. -/
def motor_step (m : MotorState) : MotorOp → MotorState
  | MotorOp.op_move_forward sp d now => move_forward m sp d now
  | MotorOp.op_move_backward sp d now => move_backward m sp d now
  | MotorOp.op_turn_left sp d now => turn_left m sp d now
  | MotorOp.op_turn_right sp d now => turn_right m sp d now
  | MotorOp.op_stop => motor_stop m
  | MotorOp.op_emergency_stop => motor_emergency_stop m
  | MotorOp.op_clear_emergency_stop => clear_emergency_stop m
  | MotorOp.op_differential_drive l r now => differential_drive m l r now

/-! ## Claim theorems -/

/-- Claim C9: every `MotorController` operation (`move_forward`, `move_backward`,
`turn_left`, `turn_right`, `stop`, `emergency_stop`, `differential_drive`,
plus `clear_emergency_stop`) keeps the commanded PWM speed state
`current_left_speed` and `current_right_speed` within [0, 1], because every
input speed is clamped before being applied. -/
theorem c9_speed_invariant (m : MotorState) (op : MotorOp)
    (h : speeds_in_range m) : speeds_in_range (motor_step m op) := by
  cases op with
  | op_move_forward sp d now =>
      simp only [motor_step, move_forward]
      split
      · exact h
      · split
        · exact ⟨le_refl 0, zero_le_one, le_refl 0, zero_le_one⟩
        · exact ⟨clamp01_nonneg _, clamp01_le_one _, clamp01_nonneg _, clamp01_le_one _⟩
  | op_move_backward sp d now =>
      simp only [motor_step, move_backward]
      split
      · exact h
      · split
        · exact ⟨le_refl 0, zero_le_one, le_refl 0, zero_le_one⟩
        · exact ⟨clamp01_nonneg _, clamp01_le_one _, clamp01_nonneg _, clamp01_le_one _⟩
  | op_turn_left sp d now =>
      simp only [motor_step, turn_left]
      split
      · exact h
      · split
        · exact ⟨le_refl 0, zero_le_one, le_refl 0, zero_le_one⟩
        · exact ⟨clamp01_nonneg _, clamp01_le_one _, clamp01_nonneg _, clamp01_le_one _⟩
  | op_turn_right sp d now =>
      simp only [motor_step, turn_right]
      split
      · exact h
      · split
        · exact ⟨le_refl 0, zero_le_one, le_refl 0, zero_le_one⟩
        · exact ⟨clamp01_nonneg _, clamp01_le_one _, clamp01_nonneg _, clamp01_le_one _⟩
  | op_stop => exact speeds_in_range_stop _
  | op_emergency_stop => exact speeds_in_range_stop _
  | op_clear_emergency_stop => exact h
  | op_differential_drive l r now =>
      simp only [motor_step, differential_drive]
      split
      · exact h
      · exact ⟨clamp01_nonneg _, clamp01_le_one _, clamp01_nonneg _, clamp01_le_one _⟩

/-- Witness for C9: a concrete over-range command (speed 5) on the fresh
controller still leaves the commanded speeds within [0, 1]. -/
theorem c9_speed_invariant_witness :
    speeds_in_range (motor_step init_motor (MotorOp.op_move_forward (some 5) none 0)) :=
  c9_speed_invariant init_motor (MotorOp.op_move_forward (some 5) none 0) (by decide)

/-- Claim C8: for every mission, `start_mission` at time `t0` followed by
`complete_mission` at time `t1` yields a `MissionRecord` whose status is
"completed", whose end time is `t1`, and whose duration equals
`end_time - start_time`. -/
theorem c8_mission_round_trip (s : MissionLoggerState)
    (data_id objective : Option String) (extra : List String)
    (summary : String) (t0 t1 : ℚ) :
    ∃ m : MissionRecord,
      (complete_mission (start_mission s data_id objective t0).2 extra
          summary t1).1 = some m
      ∧ m.status = "completed"
      ∧ m.start_time = t0
      ∧ m.end_time = some t1
      ∧ m.duration = some (t1 - t0) := by
  refine ⟨_, rfl, rfl, rfl, rfl, rfl⟩

/-- Claim C10: `execute_action` on an action whose type key is missing or not one
of the three known handlers ("movement", "exploration", "seek_object")
returns `False` and leaves the navigation state untouched; the embedding's
total dispatch mirrors the source's `try`/`except` boundary, which converts
any internal exception into a `False` return, so the caller always receives
a plain boolean. -/
theorem c10_unknown_action_false (n : NavManagerState) (a : NavAction) (now : ℚ)
    (h : a.action_type.getD "" ∉ (["movement", "exploration", "seek_object"] : List String)) :
    execute_action n a now = (false, n) := by
  simp only [List.mem_cons, List.mem_singleton, not_or] at h
  simp only [execute_action, if_neg h.1, if_neg h.2.1, if_neg h.2.2.1]

/-- Witness for C10: an action with the unknown type "dance" is rejected
with a `False` return and no state change. -/
theorem c10_unknown_action_false_witness :
    execute_action
        { motor := init_motor,
          sensors := { latest_readings := [], obstacle_threshold := 30,
                       emergency_threshold := 10 },
          max_speed := 4/5, turn_speed := 3/5,
          obstacle_threshold := 30, emergency_threshold := 10,
          nav_state := NavigationState.idle, current_goal := none,
          movement_history := [], consecutive_obstacles := 0,
          last_obstacle_time := 0, current_exploration_pattern := "random",
          total_distance_traveled := 0, objects_found := [] }
        { action_type := some "dance", direction := none, duration := none,
          speed := none, exploration_type := none, max_duration := none,
          target_object := none, max_search_time := none } 0
      = (false,
        { motor := init_motor,
          sensors := { latest_readings := [], obstacle_threshold := 30,
                       emergency_threshold := 10 },
          max_speed := 4/5, turn_speed := 3/5,
          obstacle_threshold := 30, emergency_threshold := 10,
          nav_state := NavigationState.idle, current_goal := none,
          movement_history := [], consecutive_obstacles := 0,
          last_obstacle_time := 0, current_exploration_pattern := "random",
          total_distance_traveled := 0, objects_found := [] }) :=
  c10_unknown_action_false _ _ 0 (by decide)

/-- A concrete front ultrasonic `SensorReading`. -/
def front_reading (value timestamp : ℚ) (valid : Bool) : SensorReading :=
  { sensor_id := "ultrasonic_front", sensor_type := "ultrasonic",
    value := value, unit := "cm", timestamp := timestamp, valid := valid }

/-- A sensor state whose single front reading is valid and far (100 cm) but
arbitrarily old (timestamp 0, queried at time 1000). -/
def stale_front_sensors : SensorState :=
  { latest_readings := [("ultrasonic_front", front_reading 100 0 true)],
    obstacle_threshold := 30, emergency_threshold := 10 }

/-- Claim C3 counterexample: with a valid front reading of 100 cm whose timestamp
is 1000 s old, `is_path_clear` still returns true, while the spec's
staleness-aware version (any staleness bound below the age, here 1 s)
returns false — the source never consults the reading's age. -/
theorem c3_counterexample :
    is_path_clear stale_front_sensors "front" (some 30) = true
    ∧ is_path_clear_spec stale_front_sensors "front" (some 30) 1000 1 = false := by
  constructor
  · decide
  · have hl : lookup_reading stale_front_sensors ("ultrasonic_" ++ "front")
        = some (front_reading 100 0 true) := by decide
    simp only [is_path_clear_spec, hl, front_reading]
    norm_num

/-- Claim C3 (amended): `is_path_clear(dir, t)` returns true iff the latest
reading for `dir` exists and is valid and its value is at least `t`; the
reading's age is never consulted, and a missing or invalid reading yields
false (fail-safe: unknown implies blocked). -/
theorem c3_is_path_clear_iff (s : SensorState) (dir : String) (t : ℚ) :
    is_path_clear s dir (some t) = true
      ↔ ∃ r : SensorReading,
          lookup_reading s ("ultrasonic_" ++ dir) = some r
          ∧ r.valid = true ∧ t ≤ r.value := by
  unfold is_path_clear get_distance_reading
  cases hl : lookup_reading s ("ultrasonic_" ++ dir) with
  | none => simp
  | some r =>
      cases hv : r.valid with
      | false => simp [hv]
      | true => simp [hv, ge_iff_le]

/-- Claim C4 counterexample: two `trigger_emergency` calls of the same kind one
second apart (well inside any 30 s cooldown window) create two
`EmergencyEvent` records in the history and replace the current event with
a fresh record — nothing is deduplicated. -/
theorem c4_counterexample :
    ((trigger_emergency (trigger_emergency init_safety EmergencyType.fire
        "smoke detected" "high" "gas_monitor" 0) EmergencyType.fire
        "smoke detected" "high" "gas_monitor" 1).estop.emergency_history).length = 2
    ∧ ((1 : ℚ) - 0 < 30)
    ∧ (trigger_emergency (trigger_emergency init_safety EmergencyType.fire
        "smoke detected" "high" "gas_monitor" 0) EmergencyType.fire
        "smoke detected" "high" "gas_monitor" 1).estop.current_emergency
      ≠ (trigger_emergency init_safety EmergencyType.fire
        "smoke detected" "high" "gas_monitor" 0).estop.current_emergency := by
  refine ⟨rfl, by norm_num, by decide⟩

/-- Claim C4 (amended): `trigger_emergency` performs no deduplication at all —
every call, in particular a repeated trigger of the same kind at any time
distance, appends a fresh `EmergencyEvent` to the history, makes it the
current event, and re-runs the kind-specific mitigation. -/
theorem c4_trigger_always_records (s : SafetyState) (ty : EmergencyType)
    (message severity source : String) (now : ℚ) :
    (trigger_emergency s ty message severity source now).estop.emergency_history
      = s.estop.emergency_history ++
        [{ event_type := ty, severity := severity, message := message,
           timestamp := now, source := source }]
    ∧ (trigger_emergency s ty message severity source now).estop.current_emergency
      = some { event_type := ty, severity := severity, message := message,
               timestamp := now, source := source }
    ∧ (trigger_emergency s ty message severity source now).estop.emergency_active
      = true :=
  ⟨rfl, rfl, rfl⟩

/-- Claim C5 counterexample: with `front = 20`, `left = right = 15` and thresholds
30/10, the front and both sides are all below the obstacle threshold, yet
the avoidance maneuver issues a right turn (the `left > right` tie-break)
and does not reverse — no branch of `_perform_obstacle_avoidance` ever
issues a backward movement. -/
theorem c5_counterexample :
    perform_obstacle_avoidance 30 10 (3/5)
        { front := some 20, left := some 15, right := some 15 }
      = (false, AvoidanceCmd.cmd_turn_right (3/5) 1)
    ∧ is_backward_cmd (perform_obstacle_avoidance 30 10 (3/5)
        { front := some 20, left := some 15, right := some 15 }).2 = false := by
  constructor
  · norm_num [perform_obstacle_avoidance, Option.any]
  · norm_num [perform_obstacle_avoidance, is_backward_cmd, Option.any]

/-- Claim C5 (amended): whenever the front distance is below the obstacle
threshold, the maneuver turns toward whichever of left/right has the larger
clearance, turning right when the clearances are equal; this holds even
when both sides are themselves below the threshold — the maneuver never
reverses. -/
theorem c5_turn_toward_larger_clearance (oT eT ts : ℚ) (o : ObstacleDists)
    (h : o.front.getD 999 < oT) :
    ((perform_obstacle_avoidance oT eT ts o).2 =
      if o.left.getD 999 > o.right.getD 999 then AvoidanceCmd.cmd_turn_left ts 1
      else AvoidanceCmd.cmd_turn_right ts 1)
    ∧ is_backward_cmd (perform_obstacle_avoidance oT eT ts o).2 = false := by
  constructor
  · simp only [perform_obstacle_avoidance, if_pos h]
  · simp only [perform_obstacle_avoidance, if_pos h]
    split <;> rfl

/-- Witness for C5: front 20 cm, left 25 cm, right 18 cm with threshold 30
produce a left turn (the larger clearance). -/
theorem c5_turn_toward_larger_clearance_witness :
    (perform_obstacle_avoidance 30 10 (3/5)
        { front := some 20, left := some 25, right := some 18 }).2
      = AvoidanceCmd.cmd_turn_left (3/5) 1 := by
  have h := c5_turn_toward_larger_clearance 30 10 (3/5)
      { front := some 20, left := some 25, right := some 18 } (by norm_num)
  rw [h.1]; norm_num

/-- Scenario A sensor readings: the front ultrasonic sensor reads 8 cm. -/
def scenario_a_sensors : SensorState :=
  { latest_readings := [("ultrasonic_front", front_reading 8 0 true)],
    obstacle_threshold := 30, emergency_threshold := 10 }

/-- Scenario A navigation state. -/
def scenario_a_state : NavManagerState :=
  { motor := init_motor,
    sensors := scenario_a_sensors,
    max_speed := 4/5, turn_speed := 3/5,
    obstacle_threshold := 30, emergency_threshold := 10,
    nav_state := NavigationState.idle, current_goal := none,
    movement_history := [], consecutive_obstacles := 0,
    last_obstacle_time := 0, current_exploration_pattern := "random",
    total_distance_traveled := 0, objects_found := [] }

/-- The Scenario A action: a forward movement command. -/
def scenario_a_action : NavAction :=
  { action_type := some "movement", direction := some "forward",
    duration := some 2, speed := none, exploration_type := none,
    max_duration := none, target_object := none, max_search_time := none }

/-- The Scenario A front path is reported blocked (8 cm is below the 30 cm
obstacle threshold used by `_is_path_safe`). -/
theorem scenario_a_front_blocked : is_path_safe scenario_a_state "front" = false := by
  decide

/-- Claim C6 counterexample: with the front at 8 cm and the emergency threshold at
10 cm, `execute_action` on a forward movement returns false, but the safety
interlock does NOT become active — neither the emergency-stop system nor
the motor controller's emergency flag is touched on this path. -/
theorem c6_counterexample :
    (execute_action scenario_a_state scenario_a_action 0).1 = false
    ∧ (execute_action scenario_a_state scenario_a_action 0).2.motor.emergency_stop_active
      = false := by
  have hb := scenario_a_front_blocked
  refine ⟨?_, ?_⟩
  · simp [execute_action, execute_movement_action, scenario_a_action, hb]
  · simp [execute_action, execute_movement_action, scenario_a_action, hb]
    rfl

/-- Claim C6 (amended): in Scenario A (front 8 cm, emergency threshold 10 cm) the
forward movement action is rejected with a `false` return and the whole
navigation state — motors included — is left exactly unchanged; no
emergency trigger and no movement is issued. -/
theorem c6_blocked_forward_noop :
    execute_action scenario_a_state scenario_a_action 0
      = (false, scenario_a_state) := by
  have hb := scenario_a_front_blocked
  simp [execute_action, execute_movement_action, scenario_a_action, hb]

/-- Claim C2 (code behavior at the cited lines): the `run()` dispatch loop never
consults `EmergencyStop.is_emergency_active` — the next state is identical
whether or not an emergency is active — and no tick ever transitions into
the EMERGENCY state: after a tick the machine is in EMERGENCY exactly when
it already was before the tick. -/
theorem c2_run_tick_ignores_interlock (st : RobotState) (env : TickEnv) :
    run_tick st env = run_tick st { env with emergency_active := false }
    ∧ (run_tick st env = RobotState.emergency ↔ st = RobotState.emergency) := by
  refine ⟨by cases st <;> rfl, ?_⟩
  cases st with
  | idle => by_cases hw : env.wake_word <;> simp [run_tick, hw]
  | listening => cases hc : env.command <;> simp [run_tick, hc]
  | processing =>
      cases hc : env.command with
      | none => simp [run_tick, hc]
      | some c =>
          simp only [run_tick, hc]
          split_ifs <;> simp
  | exploring => by_cases hm : env.mission_complete <;> simp [run_tick, hm]
  | initializing => simp [run_tick]
  | speaking => simp [run_tick]
  | moving => simp [run_tick]
  | monitoring => simp [run_tick]
  | alert => simp [run_tick]
  | emergency => simp [run_tick]
  | error => simp [run_tick]
  | shutdown => simp [run_tick]

/-! Emergency-trace lemmas for the movement-blocking invariant. -/

theorem move_forward_blocked (m : MotorState) (sp d : Option ℚ) (now : ℚ)
    (h : m.emergency_stop_active = true) : move_forward m sp d now = m := by
  simp [move_forward, h]

theorem turn_left_blocked (m : MotorState) (sp d : Option ℚ) (now : ℚ)
    (h : m.emergency_stop_active = true) : turn_left m sp d now = m := by
  simp [turn_left, h]

theorem turn_right_blocked (m : MotorState) (sp d : Option ℚ) (now : ℚ)
    (h : m.emergency_stop_active = true) : turn_right m sp d now = m := by
  simp [turn_right, h]

/-- Every trace call other than `clear_emergency_stop` keeps the motor
controller's emergency flag set once it is set (in particular
`EmergencyStop.reset_emergency` does not clear it). -/
theorem safety_step_keeps_flag (s : SafetyState) (op : SafetyOp)
    (h : s.motor.emergency_stop_active = true)
    (hop : op ≠ SafetyOp.clear_estop) :
    (safety_step s op).motor.emergency_stop_active = true := by
  cases op with
  | trigger ty msg sev src now =>
      simp only [safety_step, trigger_emergency]
      split
      · rfl
      · exact h
  | mv_forward sp d now => simp [safety_step, move_forward, h]
  | mv_backward sp d now => simp [safety_step, move_backward, h]
  | tn_left sp d now => simp [safety_step, turn_left, h]
  | tn_right sp d now => simp [safety_step, turn_right, h]
  | halt => exact h
  | motor_estop => rfl
  | clear_estop => exact absurd rfl hop
  | reset => exact h
  | diff_drive l r now => simp [safety_step, differential_drive, h]

/-- Over a trace containing no `clear_emergency_stop` call, the motor
emergency flag stays set. -/
theorem safety_run_keeps_flag (ops : List SafetyOp) :
    ∀ s : SafetyState, s.motor.emergency_stop_active = true →
      SafetyOp.clear_estop ∉ ops →
      (safety_run s ops).motor.emergency_stop_active = true := by
  induction ops with
  | nil => intro s h _; exact h
  | cons op rest ih =>
      intro s h hmem
      have hop : op ≠ SafetyOp.clear_estop := fun he => hmem (he ▸ List.mem_cons_self op rest)
      have hrest : SafetyOp.clear_estop ∉ rest := fun hr => hmem (List.mem_cons_of_mem op hr)
      exact ih (safety_step s op) (safety_step_keeps_flag s op h hop) hrest

/-- While the motor emergency flag is set, a `moveForward`/`turnLeft`/
`turnRight` call leaves the entire system state unchanged. -/
theorem safety_step_movement_noop (s : SafetyState) (op : SafetyOp)
    (h : s.motor.emergency_stop_active = true)
    (hop : is_movement_cmd op = true) :
    safety_step s op = s := by
  cases op with
  | mv_forward sp d now =>
      simp [safety_step, move_forward_blocked s.motor sp d now h]
  | tn_left sp d now =>
      simp [safety_step, turn_left_blocked s.motor sp d now h]
  | tn_right sp d now =>
      simp [safety_step, turn_right_blocked s.motor sp d now h]
  | trigger ty msg sev src now => exact absurd hop (by simp [is_movement_cmd])
  | mv_backward sp d now => exact absurd hop (by simp [is_movement_cmd])
  | halt => exact absurd hop (by simp [is_movement_cmd])
  | motor_estop => exact absurd hop (by simp [is_movement_cmd])
  | clear_estop => exact absurd hop (by simp [is_movement_cmd])
  | reset => exact absurd hop (by simp [is_movement_cmd])
  | diff_drive l r now => exact absurd hop (by simp [is_movement_cmd])

/-- A trigger whose handler stops movement sets the motor emergency flag. -/
theorem trigger_sets_motor_flag (s : SafetyState) (ty : EmergencyType)
    (message severity source : String) (now : ℚ)
    (hty : handler_stops_movement ty = true) :
    (trigger_emergency s ty message severity source now).motor.emergency_stop_active
      = true := by
  simp [trigger_emergency, hty, motor_emergency_stop, motor_stop]

/-- Claim C1 (amended): once `trigger_emergency` has been called with any kind
whose handler stops movement (every kind except INTRUDER and
SYSTEM_CRITICAL), each subsequent `moveForward`/`turnLeft`/`turnRight`
call leaves the system state — motor direction and speeds included —
exactly unchanged, for as long as the motor controller's emergency flag has
not been explicitly cleared; `reset_emergency` alone does not re-enable
movement. -/
theorem c1_blocked_after_trigger (s0 : SafetyState) (ty : EmergencyType)
    (message severity source : String) (t : ℚ) (q : List SafetyOp)
    (op : SafetyOp)
    (hty : handler_stops_movement ty = true)
    (hq : SafetyOp.clear_estop ∉ q)
    (hop : is_movement_cmd op = true) :
    safety_step (safety_run (trigger_emergency s0 ty message severity source t) q) op
      = safety_run (trigger_emergency s0 ty message severity source t) q := by
  apply safety_step_movement_noop _ _ _ hop
  exact safety_run_keeps_flag q _
    (trigger_sets_motor_flag s0 ty message severity source t hty) hq

/-- Witness for C1: after a MANUAL_STOP trigger and even after a subsequent
`reset_emergency`, a `move_forward` call is a no-op. -/
theorem c1_blocked_after_trigger_witness :
    safety_step
        (safety_run (trigger_emergency init_safety EmergencyType.manual_stop
          "user stop" "high" "user" 0) [SafetyOp.reset])
        (SafetyOp.mv_forward (some 1) none 5)
      = safety_run (trigger_emergency init_safety EmergencyType.manual_stop
          "user stop" "high" "user" 0) [SafetyOp.reset] :=
  c1_blocked_after_trigger init_safety EmergencyType.manual_stop
    "user stop" "high" "user" 0 [SafetyOp.reset]
    (SafetyOp.mv_forward (some 1) none 5)
    (by decide) (by decide) (by decide)

/-- Claim C1 counterexample: `trigger_emergency` with kind INTRUDER sets the
emergency-active flag but its handler never stops movement, so a
`move_forward` immediately after the (unreset) emergency still takes
effect: the left wheel speed changes from 0 to 1. -/
theorem c1_counterexample :
    (trigger_emergency init_safety EmergencyType.intruder
      "unknown face" "critical" "face_recognition" 0).estop.emergency_active = true
    ∧ (safety_step (trigger_emergency init_safety EmergencyType.intruder
        "unknown face" "critical" "face_recognition" 0)
        (SafetyOp.mv_forward (some 1) none 1)).motor.current_left_speed = 1
    ∧ (trigger_emergency init_safety EmergencyType.intruder
        "unknown face" "critical" "face_recognition" 0).motor.current_left_speed
      = 0 := by
  refine ⟨rfl, ?_, rfl⟩
  simp [safety_step, trigger_emergency, handler_stops_movement, move_forward,
    init_safety, init_motor, set_motor_speeds, opt_truthy, clamp01]

/-- Deduplicating a nonempty fully repetitive list yields a single entry. -/
theorem dedup_replicate (k : ℕ) (a : String) :
    (List.replicate (k + 1) a).dedup = [a] := by
  induction k with
  | zero =>
      rw [show List.replicate 1 a = [a] from rfl,
        List.dedup_cons_of_not_mem (List.not_mem_nil a), List.dedup_nil]
  | succ k ih =>
      rw [List.replicate_succ,
        List.dedup_cons_of_mem (List.mem_replicate.mpr ⟨Nat.succ_ne_zero k, rfl⟩)]
      exact ih

/-- A repetitive list followed by one extra entry has at most two distinct
entries. -/
theorem dedup_replicate_append_length_le (k : ℕ) (a x : String) :
    ((List.replicate k a ++ [x]).dedup).length ≤ 2 := by
  induction k with
  | zero =>
      rw [List.replicate_zero, List.nil_append,
        List.dedup_cons_of_not_mem (List.not_mem_nil x), List.dedup_nil]
      simp
  | succ k ih =>
      rw [List.replicate_succ, List.cons_append]
      by_cases hmem : a ∈ List.replicate k a ++ [x]
      · rw [List.dedup_cons_of_mem hmem]
        exact ih
      · rw [List.dedup_cons_of_not_mem hmem]
        have hk : k = 0 := by
          by_contra hk
          exact hmem (List.mem_append_left _ (List.mem_replicate.mpr ⟨hk, rfl⟩))
        subst hk
        have hx : (List.replicate 0 a ++ [x]).dedup = [x] := by
          rw [List.replicate_zero, List.nil_append,
            List.dedup_cons_of_not_mem (List.not_mem_nil x), List.dedup_nil]
        rw [hx]
        simp

/-- Once the history holds ten repeated entries plus any one further entry,
`_detect_stuck_condition` reports stuck (its history branch fires: more
than ten recorded actions whose last six contain at most two distinct
entries). -/
theorem stuck_after_append (n1 : NavManagerState) (entry x : String) (now : ℚ)
    (hh : n1.movement_history = List.replicate 10 entry ++ [x]) :
    detect_stuck_condition n1 now = true := by
  unfold detect_stuck_condition
  split
  · rfl
  · split
    · rfl
    · rename_i hc
      exfalso
      apply hc
      rw [hh]
      have hdrop : (List.replicate 10 entry ++ [x]).drop
          ((List.replicate 10 entry ++ [x]).length - 6)
          = List.replicate 5 entry ++ [x] := by
        rw [show ((List.replicate 10 entry ++ [x]).length - 6) = 5 by simp]
        rw [List.drop_append_of_le_length (by simp)]
        simp
      rw [Bool.and_eq_true]
      refine ⟨by simp, ?_⟩
      rw [hdrop]
      exact decide_eq_true (dedup_replicate_append_length_le 5 entry x)

/-- Claim C7: when the movement history holds 10 consecutive identical actions,
the stuck-window predicate holds (the last recorded actions contain at most
two distinct entries) and, while EXPLORING under the (default) random
pattern with no obstacle in range, `continue_exploration` reports mission
complete within two calls: the first call can only append one more history
entry, after which the stuck condition fires. -/
theorem c7_stuck_history_terminates (n : NavManagerState) (mission : MissionData)
    (e1 e2 : ExploreEnv) (objs1 objs2 : List String) (entry : String)
    (hstate : n.nav_state = NavigationState.exploring)
    (hhist : n.movement_history = List.replicate 10 entry)
    (hpat : n.current_exploration_pattern = "random")
    (hav : need_obstacle_avoidance n.obstacle_threshold (get_obstacle_map n.sensors) = false) :
    ((n.movement_history.drop (n.movement_history.length - 6)).dedup.length ≤ 2)
    ∧ ((continue_exploration n mission e1 objs1).1 = true
       ∨ (continue_exploration (continue_exploration n mission e1 objs1).2.1
            (continue_exploration n mission e1 objs1).2.2 e2 objs2).1 = true) := by
  constructor
  · rw [hhist]
    have hd : (List.replicate 10 entry).drop ((List.replicate 10 entry).length - 6)
        = List.replicate 6 entry := by simp
    rw [hd, show (6 : ℕ) = 5 + 1 from rfl, dedup_replicate 5 entry]
    simp
  · by_cases ht1 : e1.now - mission.start_time > mission.max_duration
    · left
      simp [continue_exploration, hstate, ht1]
    · by_cases hs1 : detect_stuck_condition n e1.now = true
      · left
        simp [continue_exploration, hstate, ht1, hs1]
      · right
        have hstep : perform_exploration_step n e1 = random_exploration n e1 := by
          simp [perform_exploration_step, hav, hpat]
        have hc1 : continue_exploration n mission e1 objs1
            = (false,
               (check_for_discoveries (random_exploration n e1) mission objs1).1,
               (check_for_discoveries (random_exploration n e1) mission objs1).2) := by
          simp [continue_exploration, hstate, ht1, hs1, hstep]
        rw [hc1]
        have hnav1 : (check_for_discoveries (random_exploration n e1) mission objs1).1.nav_state
            = NavigationState.exploring := by
          simp [check_for_discoveries, random_exploration, hstate]
        have hh1 : (check_for_discoveries (random_exploration n e1) mission objs1).1.movement_history
            = List.replicate 10 entry ++ [e1.rand_direction ++ "_" ++ e1.rand_duration_label] := by
          simp [check_for_discoveries, random_exploration, hhist]
        by_cases ht2 : e2.now - ((check_for_discoveries (random_exploration n e1) mission objs1).2).start_time
            > ((check_for_discoveries (random_exploration n e1) mission objs1).2).max_duration
        · simp [continue_exploration, hnav1, ht2]
        · have hs2 := stuck_after_append
            (check_for_discoveries (random_exploration n e1) mission objs1).1 entry
            (e1.rand_direction ++ "_" ++ e1.rand_duration_label) e2.now hh1
          simp [continue_exploration, hnav1, ht2, hs2]

/-- A concrete exploring state whose history is ten `turn_left` entries. -/
def stuck_nav_state : NavManagerState :=
  { motor := init_motor,
    sensors := { latest_readings := [], obstacle_threshold := 30, emergency_threshold := 10 },
    max_speed := 4/5, turn_speed := 3/5,
    obstacle_threshold := 30, emergency_threshold := 10,
    nav_state := NavigationState.exploring, current_goal := none,
    movement_history := List.replicate 10 "turn_left",
    consecutive_obstacles := 0, last_obstacle_time := 0,
    current_exploration_pattern := "random",
    total_distance_traveled := 0, objects_found := [] }

/-- A concrete exploration mission dict. -/
def c7_mission : MissionData :=
  { start_time := 0, max_duration := 300, discovered_objects := [] }

/-- Concrete random draws for the first tick. -/
def c7_env1 : ExploreEnv :=
  { now := 1, rand_direction := "forward", rand_duration := 2,
    rand_duration_label := "2.0", rand_turn := "left" }

/-- Concrete random draws for the second tick. -/
def c7_env2 : ExploreEnv :=
  { now := 2, rand_direction := "forward", rand_duration := 2,
    rand_duration_label := "2.0", rand_turn := "left" }

/-- Witness for C7: with ten recorded `turn_left` actions, the stuck window
holds and exploration reports completion within two ticks. -/
theorem c7_stuck_history_terminates_witness :
    ((stuck_nav_state.movement_history.drop
        (stuck_nav_state.movement_history.length - 6)).dedup.length ≤ 2)
    ∧ ((continue_exploration stuck_nav_state c7_mission c7_env1 []).1 = true
       ∨ (continue_exploration
            (continue_exploration stuck_nav_state c7_mission c7_env1 []).2.1
            (continue_exploration stuck_nav_state c7_mission c7_env1 []).2.2
            c7_env2 []).1 = true) :=
  c7_stuck_history_terminates stuck_nav_state c7_mission c7_env1 c7_env2 [] []
    "turn_left" rfl rfl rfl (by decide)

end Sarus
